import Mathlib

/-!
Verification of the rabbit-hole backend (FastAPI + flat-file JSON storage).

The development shallowly embeds the orchestration layer of
`backend/main.py` and the key-value store of `backend/storage.py`:

* `JSONStorage` files are modelled as ordered association lists
  (`List (String × α)`), matching Python dict semantics (`d[k] = v`
  replaces the value in place when the key exists, appends otherwise;
  lookups return the first match).  `read`/`write` — the JSON
  serialization round-trip on a well-formed file — are the identity on
  this model, so `get`/`set`/`delete` act directly on the list.
* Provider interactions (`client.models.generate_content_stream`,
  `generate_content`) are modelled by an explicit outcome value: a
  streaming call either yields a finite list of chunks and stops, or
  yields a prefix of chunks and then raises; a structured call either
  returns a parsed payload, fails to parse, or raises.
* Each endpoint body becomes a pure function of the request, the
  current store state and the provider outcome, returning the frames
  it yields, the HTTP error it raises, or the store it leaves behind.
-/

namespace RabbitHole

/-! ## Key-value store (`backend/storage.py`) -/

/-- Python dict assignment `d[key] = value` on an insertion-ordered
association list: replaces in place if `key` is present, appends otherwise. -/
def dictSet {α : Type} : List (String × α) → String → α → List (String × α)
  | [], k, v => [(k, v)]
  | (k₀, v₀) :: rest, k, v =>
    if k₀ = k then (k₀, v) :: rest else (k₀, v₀) :: dictSet rest k v

/-- Python dict lookup `d.get(key)` on an association list. -/
def dictGet {α : Type} : List (String × α) → String → Option α
  | [], _ => none
  | (k₀, v₀) :: rest, k => if k₀ = k then some v₀ else dictGet rest k

/-- Python dict deletion `del d[key]` (no-op when absent, as guarded in the
source by `if key in data`). -/
def dictDel {α : Type} : List (String × α) → String → List (String × α)
  | [], _ => []
  | (k₀, v₀) :: rest, k =>
    if k₀ = k then rest else (k₀, v₀) :: dictDel rest k

namespace JSONStorage

/-- Embeds `JSONStorage.read`: deserialize the whole file.  The file state is
modelled as the dictionary it decodes to, so on a well-formed file `read`
is the identity (the source returns `{}` only on a decode error or a
missing file, which the model excludes). -/
def read {α : Type} (file : List (String × α)) : List (String × α) := file

/-- Embeds `JSONStorage.write`: serialize and replace the whole file. -/
def write {α : Type} (data : List (String × α)) : List (String × α) := data

/-- Embeds `JSONStorage.get`: read the file, return `data.get(key, default=None)`. -/
def get {α : Type} (file : List (String × α)) (key : String) : Option α :=
  dictGet (read file) key

/-- Embeds `JSONStorage.set`: read the whole file, patch the single entry
`key`, write the whole file back. -/
def set {α : Type} (file : List (String × α)) (key : String) (value : α) :
    List (String × α) :=
  write (dictSet (read file) key value)

/-- Embeds `JSONStorage.delete`. -/
def delete {α : Type} (file : List (String × α)) (key : String) :
    List (String × α) :=
  write (dictDel (read file) key)

end JSONStorage

/-! ## Request / response schemas (`backend/models.py`) -/

/-- Embeds `models.LearningPlanRequest`. -/
structure LearningPlanRequest where
  title : String
  abstract : String
  full_text : Option String := none
  sections : Option (List String) := none
deriving Repr, DecidableEq

/-- Embeds `models.LearningPlanResponse`. -/
structure LearningPlanResponse where
  job_id : String
  status : String
  message : Option String := none
deriving Repr, DecidableEq

/-- Embeds `models.ChatMessage`: a caller-supplied history turn whose `role`
is an arbitrary string (nominally `user` or `assistant`). -/
structure ChatMessage where
  role : String
  content : String
deriving Repr, DecidableEq

/-- Embeds `models.ChatRequest`. -/
structure ChatRequest where
  question : String
  context : String
  page : Option Int := none
  file_search_store_id : Option String := none
  history : Option (List ChatMessage) := none
deriving Repr, DecidableEq

/-- Embeds `fastapi.HTTPException` as raised by the endpoint bodies. -/
structure HTTPError where
  status_code : Nat
  detail : String
deriving Repr, DecidableEq

/-! ## Job records (`backend/main.py` learning-plan endpoints)

A job dict as `main.py` actually builds it.  The type parameter `α` stands
for the parsed structured payload returned by `json.loads(response.text)`
(opaque to the orchestration layer).  Fields other than `status` are
`Option`s because the Python dict gains them one assignment at a time. -/

structure JobRecord (α : Type) where
  status : String
  request : Option LearningPlanRequest := none
  progress : Option String := none
  plan : Option α := none
  error : Option String := none
deriving Repr, DecidableEq

/-- The jobs flat file (`jobs_storage`), keyed by job id. -/
def JobStore (α : Type) : Type := List (String × JobRecord α)

/-- Outcome of the synchronous structured provider call made by the
background task: `client.models.generate_content` either returns text that
`json.loads` parses into a payload, returns text that `json.loads` rejects,
or raises.  `String` arguments are the `str(e)` of the raised exception. -/
inductive ProviderResult (α : Type) where
  | success (parsed : α)
  | parseError (msg : String)
  | providerError (msg : String)
deriving Repr, DecidableEq

/-- Message of the `TypeError` Python raises when the background task indexes
into the `None` that `jobs_storage.get` returns for a missing job id. -/
def noneTypeMsg : String := "'NoneType' object does not support item assignment"

/-- Embeds the `except Exception` handler of `process_learning_plan`
(`main.py` lines 667-671): re-read the record (falling back to an empty
dict), patch `status := "failed"` and `error := str(e)` in place, persist. -/
def failWrite {α : Type} (store : JobStore α) (job_id : String) (msg : String) :
    JobStore α :=
  let job_data := (JSONStorage.get store job_id).getD { status := "" }
  JSONStorage.set store job_id { job_data with status := "failed", error := some msg }

/-- Embeds the background task `process_learning_plan` (`main.py` lines
626-671) as a store transformer.  The request argument only feeds the prompt
string handed to the provider, so the provider outcome subsumes it; the
`try` body reads the record, advances it to `processing` with two progress
writes, runs the provider, and on success persists `status := "complete"`
with the parsed payload under the `plan` key (the in-memory dict is patched
field by field, never rebuilt); any exception lands in `failWrite`. -/
def process_learning_plan {α : Type} (store : JobStore α) (job_id : String)
    (provider : ProviderResult α) : JobStore α :=
  match JSONStorage.get store job_id with
  | none => failWrite store job_id noneTypeMsg
  | some job₀ =>
    let job₁ := { job₀ with
      status := "processing",
      progress := some "Researching prerequisites..." }
    let store₁ := JSONStorage.set store job_id job₁
    let job₂ := { job₁ with progress := some "Running deep research..." }
    let store₂ := JSONStorage.set store₁ job_id job₂
    match provider with
    | .success parsed =>
        JSONStorage.set store₂ job_id { job₂ with status := "complete", plan := some parsed }
    | .parseError msg => failWrite store₂ job_id msg
    | .providerError msg => failWrite store₂ job_id msg

/-- Embeds the endpoint `generate_learning_plan` (`main.py` lines 577-593).
The fresh id minted by `f"lp_\x7buuid4().hex[:8]\x7d"` is passed in as
`job_id`; `asyncio.create_task(process_learning_plan(job_id, request))` is
modelled by returning the scheduled task's arguments as the third component
(the endpoint itself never touches the provider).  Returns the store after
the synchronous `queued` write, the HTTP response, and the scheduled task. -/
def generate_learning_plan {α : Type} (store : JobStore α) (job_id : String)
    (request : LearningPlanRequest) :
    JobStore α × LearningPlanResponse × (String × LearningPlanRequest) :=
  (JSONStorage.set store job_id { status := "queued", request := some request },
   { job_id := job_id,
     status := "processing",
     message := some ("Learning plan generation started. Poll /api/learning-plan/status/"
                        ++ job_id) },
   (job_id, request))

/-- Shape of the JSON object `get_learning_plan_status` returns: always
`job_id` and `status`, plus at most one of `progress` / `plan` / `error`. -/
structure StatusView (α : Type) where
  job_id : String
  status : String
  progress : Option String := none
  plan : Option α := none
  error : Option String := none
deriving Repr, DecidableEq

/-- Embeds the endpoint `get_learning_plan_status` (`main.py` lines
596-619): a read-only view of the store — its only storage operation is
`jobs_storage.get` — returning 404 for a missing id and otherwise a
response dict populated from the record according to its `status` alone. -/
def get_learning_plan_status {α : Type} (store : JobStore α) (job_id : String) :
    Except HTTPError (StatusView α) :=
  match JSONStorage.get store job_id with
  | none => .error { status_code := 404, detail := "Job ID not found" }
  | some job =>
    let base : StatusView α := { job_id := job_id, status := job.status }
    if job.status = "processing" then
      .ok { base with progress := some (job.progress.getD "Analyzing paper...") }
    else if job.status = "complete" then
      .ok { base with plan := job.plan }
    else if job.status = "failed" then
      .ok { base with error := some (job.error.getD "Unknown error") }
    else
      .ok base

/-! ## Stream relay (`backend/main.py` streaming endpoints) -/

/-- Conversation roles accepted by the provider. -/
inductive Role where
  | user
  | model
deriving Repr, DecidableEq

/-- One conversation turn: a role together with its single text part
(`\x7b"role": role, "parts": [\x7b"text": text\x7d]\x7d` in the source). -/
structure Turn where
  role : Role
  text : String
deriving Repr, DecidableEq

/-- Embeds the history role mapping of `chat_stream` (`main.py` line 255):
`role = "user" if msg.role == "user" else "model"`. -/
def mapRole (role : String) : Role :=
  if role = "user" then .user else .model

/-- Embeds the page annotation `f" (from page \x7brequest.page\x7d)" if
request.page else ""`: Python truthiness makes both `None` and `0` yield
the empty suffix. -/
def pageRef (page : Option Int) : String :=
  match page with
  | none => ""
  | some p => if p = 0 then "" else " (from page " ++ toString p ++ ")"

/-- Embeds the `context_message` f-string of `chat_stream` (lines 245-248). -/
def contextMessage (context : String) (page : Option Int) : String :=
  "Context" ++ pageRef page ++ ":\n" ++ context ++
    "\n\nI'll be asking questions about this context. Please help me understand it."

/-- The synthetic acknowledgement turn text (line 250). -/
def ackMessage : String :=
  "I'll help you understand this context. What would you like to know?"

/-- Embeds the `contents` list assembled by `chat_stream.event_generator`
(lines 239-259): context turn, acknowledgement turn, mapped history
(`if request.history:` skips both `None` and `[]`, which coincide with
mapping the empty list), then the live question. -/
def chatContents (request : ChatRequest) : List Turn :=
  let base : List Turn :=
    [{ role := .user, text := contextMessage request.context request.page },
     { role := .model, text := ackMessage }]
  let hist : List Turn :=
    match request.history with
    | none => []
    | some msgs => msgs.map fun m => { role := mapRole m.role, text := m.content }
  base ++ hist ++ [{ role := .user, text := request.question }]

/-- One frame of the client-facing event stream. -/
inductive Frame where
  | text (s : String)
  | done
  | error (msg : String)
deriving Repr, DecidableEq

/-- Lowercase hex digit, as used by `json.dumps` in `\u`-escapes. -/
def hexDigit (n : Nat) : Char :=
  if n < 10 then Char.ofNat (48 + n) else Char.ofNat (87 + n)

/-- Four lowercase hex digits. -/
def hex4 (n : Nat) : String :=
  String.mk [hexDigit (n / 4096 % 16), hexDigit (n / 256 % 16),
             hexDigit (n / 16 % 16), hexDigit (n % 16)]

/-- Escaping of one character under `json.dumps` defaults (`ensure_ascii`):
the two-character escapes for backslash, quote and the C0 controls with
short forms, `\uXXXX` (with surrogate pairs above the BMP) for other
controls and all non-ASCII, the character itself otherwise. -/
def escapeChar (c : Char) : String :=
  if c = '\\' then "\\\\"
  else if c = '"' then "\\\""
  else if c = '\n' then "\\n"
  else if c = '\r' then "\\r"
  else if c = '\t' then "\\t"
  else if c.toNat = 8 then "\\b"
  else if c.toNat = 12 then "\\f"
  else if c.toNat < 32 ∨ 126 < c.toNat then
    if c.toNat < 65536 then "\\u" ++ hex4 c.toNat
    else
      let n := c.toNat - 65536
      "\\u" ++ hex4 (55296 + n / 1024) ++ "\\u" ++ hex4 (56320 + n % 1024)
  else String.singleton c

/-- JSON string literal for `s` under `json.dumps` defaults. -/
def jsonString (s : String) : String :=
  "\"" ++ String.join (s.toList.map escapeChar) ++ "\""

/-- Embeds `json.dumps` (default separators) of the three single-key dicts
the endpoints serialize: `\x7b"text": s\x7d`, `\x7b"done": True\x7d` and
`\x7b"error": msg\x7d`. -/
def jsonDumps : Frame → String
  | .text s => "\x7b\"text\": " ++ jsonString s ++ "\x7d"
  | .done => "\x7b\"done\": true\x7d"
  | .error msg => "\x7b\"error\": " ++ jsonString msg ++ "\x7d"

/-- Wire form of one frame, exactly as the endpoint yields it:
`data = json.dumps(...)` then `f"data: \x7bdata\x7d\n\n"`. -/
def renderFrame (f : Frame) : String := "data: " ++ jsonDumps f ++ "\n\n"

/-- Behaviour of one provider streaming call
(`client.models.generate_content_stream` plus iteration): either the
iterator yields a finite list of chunks and finishes, or it yields a
prefix of chunks and then the call or the iteration raises with message
`msg` (`str(e)`).  Each chunk carries `chunk.text : Option String` (the
SDK may return `None` there). -/
inductive StreamOutcome where
  | ok (chunks : List (Option String))
  | fail (produced : List (Option String)) (msg : String)
deriving Repr, DecidableEq

/-- Frames emitted by the shared chunk loop `for chunk in response: if
chunk.text: yield ...`: one text frame per chunk whose `text` is neither
`None` nor empty (Python truthiness), in arrival order. -/
def chunkFrames (chunks : List (Option String)) : List Frame :=
  chunks.filterMap fun c =>
    match c with
    | none => none
    | some s => if s = "" then none else some (Frame.text s)

namespace chat_stream

/-- Embeds `chat_stream.event_generator` (lines 286-295), the provider call
already reduced to its outcome: the chunk loop (run through
`iterate_in_thread`, which preserves the chunk sequence), then the done
marker; the surrounding `except Exception` turns a raise anywhere in the
body into a single error frame and ends the generator. -/
def frames : StreamOutcome → List Frame
  | .ok chunks => chunkFrames chunks ++ [Frame.done]
  | .fail produced msg => chunkFrames produced ++ [Frame.error msg]

end chat_stream

namespace formula_explain

/-- Embeds `formula_explain.event_generator` (lines 337-346): same loop,
done marker and exception handler as `chat_stream`, iterated inline. -/
def frames : StreamOutcome → List Frame
  | .ok chunks => chunkFrames chunks ++ [Frame.done]
  | .fail produced msg => chunkFrames produced ++ [Frame.error msg]

end formula_explain

namespace figure_explain

/-- Embeds `figure_explain.event_generator` (lines 394-403). -/
def frames : StreamOutcome → List Frame
  | .ok chunks => chunkFrames chunks ++ [Frame.done]
  | .fail produced msg => chunkFrames produced ++ [Frame.error msg]

end figure_explain

namespace equation_explain

/-- Embeds `equation_explain.event_generator` (lines 451-460). -/
def frames : StreamOutcome → List Frame
  | .ok chunks => chunkFrames chunks ++ [Frame.done]
  | .fail produced msg => chunkFrames produced ++ [Frame.error msg]

end equation_explain

/-- Embeds the endpoint `chat_stream` (lines 225-304): the synchronous
validation check `if not request.question or not request.context` rejects
with 400 before the generator is created; otherwise the response streams
the generator's frames. -/
def chat_stream_endpoint (request : ChatRequest) (outcome : StreamOutcome) :
    Except HTTPError (List Frame) :=
  if request.question = "" ∨ request.context = "" then
    .error { status_code := 400, detail := "Both question and context are required" }
  else
    .ok (chat_stream.frames outcome)

/-- Embeds the endpoint `formula_explain` (lines 307-355): `if not formula`
rejects with 400 before the generator is created. -/
def formula_explain_endpoint (formula : String) (context : Option String)
    (page : Option Int) (outcome : StreamOutcome) :
    Except HTTPError (List Frame) :=
  if formula = "" then
    .error { status_code := 400, detail := "Formula is required" }
  else
    .ok (formula_explain.frames outcome)

/-! ## Aspect-ratio bucketing (`equation_annotate`, lines 490-501)

Python floats are modelled as exact rationals; every threshold and every
comparison point relevant to the claims is far enough from the nearest
double for the rounding of the literals not to change any comparison. -/

/-- Embeds the `aspect_ratio_str` chain of `equation_annotate`: the default
`"1:1"` is overwritten on every branch of the `if`/`elif`/`else` chain, so
the result is determined by the chain alone. -/
def aspectRatioBucket (ratio : ℚ) : String :=
  if ratio > 22/10 then "16:9"
  else if ratio > 15/10 then "4:3"
  else if ratio > 9/10 then "1:1"
  else if ratio > 6/10 then "3:4"
  else "9:16"

/-- Texts of the chunks the shared loop actually emits: those that are
neither `None` nor empty, in arrival order. -/
def chunkTexts (chunks : List (Option String)) : List String :=
  chunks.filterMap fun c =>
    match c with
    | none => none
    | some s => if s = "" then none else some s

/-! ## Helper lemmas -/

theorem dictGet_dictSet_self {α : Type} (d : List (String × α)) (k : String) (v : α) :
    dictGet (dictSet d k v) k = some v := by
  induction d with
  | nil => simp [dictSet, dictGet]
  | cons hd tl ih =>
    obtain ⟨k₀, v₀⟩ := hd
    by_cases h : k₀ = k
    · simp [dictSet, dictGet, h]
    · simp [dictSet, dictGet, h, ih]

theorem dictGet_dictSet_ne {α : Type} (d : List (String × α)) (k k' : String) (v : α)
    (h : k' ≠ k) :
    dictGet (dictSet d k v) k' = dictGet d k' := by
  induction d with
  | nil =>
    have hne : ¬ k = k' := fun hh => h hh.symm
    simp [dictSet, dictGet, hne]
  | cons hd tl ih =>
    obtain ⟨k₀, v₀⟩ := hd
    by_cases h₀ : k₀ = k
    · subst h₀
      have hne : ¬ k₀ = k' := fun hh => h hh.symm
      simp [dictSet, dictGet, hne]
    · simp [dictSet, dictGet, h₀, ih]

theorem chunkFrames_eq_map (chunks : List (Option String)) :
    chunkFrames chunks = (chunkTexts chunks).map Frame.text := by
  induction chunks with
  | nil => rfl
  | cons c rest ih =>
    cases c with
    | none => simpa [chunkFrames, chunkTexts] using ih
    | some s =>
      by_cases h : s = ""
      · simpa [chunkFrames, chunkTexts, h] using ih
      · simpa [chunkFrames, chunkTexts, h] using ih

theorem chunkTexts_map_some (texts : List String) (h : ∀ t ∈ texts, t ≠ "") :
    chunkTexts (texts.map some) = texts := by
  induction texts with
  | nil => rfl
  | cons t rest ih =>
    have ht : t ≠ "" := h t (List.mem_cons_self t rest)
    have ih' := ih fun x hx => h x (List.mem_cons_of_mem t hx)
    simp only [List.map_cons, chunkTexts, List.filterMap_cons] at ih' ⊢
    simp [ht, ih']

theorem failWrite_get {α : Type} (store : JobStore α) (job_id msg : String) :
    JSONStorage.get (failWrite store job_id msg) job_id
      = some { (JSONStorage.get store job_id).getD { status := "" } with
                 status := "failed", error := some msg } :=
  dictGet_dictSet_self _ _ _

theorem process_get_some {α : Type} (store : JobStore α) (job_id : String)
    (job₀ : JobRecord α) (h : JSONStorage.get store job_id = some job₀)
    (provider : ProviderResult α) :
    JSONStorage.get (process_learning_plan store job_id provider) job_id
      = some (match provider with
              | .success parsed =>
                  { job₀ with status := "complete",
                              progress := some "Running deep research...",
                              plan := some parsed }
              | .parseError msg =>
                  { job₀ with status := "failed",
                              progress := some "Running deep research...",
                              error := some msg }
              | .providerError msg =>
                  { job₀ with status := "failed",
                              progress := some "Running deep research...",
                              error := some msg }) := by
  cases provider with
  | success parsed =>
    simp only [process_learning_plan, h]
    exact dictGet_dictSet_self _ _ _
  | parseError msg =>
    simp only [process_learning_plan, h]
    rw [failWrite_get]
    rw [show JSONStorage.get
          (JSONStorage.set
            (JSONStorage.set store job_id
              { job₀ with status := "processing",
                          progress := some "Researching prerequisites..." })
            job_id
            { job₀ with status := "processing",
                        progress := some "Running deep research..." })
          job_id
        = some { job₀ with status := "processing",
                           progress := some "Running deep research..." }
        from dictGet_dictSet_self _ _ _]
    rfl
  | providerError msg =>
    simp only [process_learning_plan, h]
    rw [failWrite_get]
    rw [show JSONStorage.get
          (JSONStorage.set
            (JSONStorage.set store job_id
              { job₀ with status := "processing",
                          progress := some "Researching prerequisites..." })
            job_id
            { job₀ with status := "processing",
                        progress := some "Running deep research..." })
          job_id
        = some { job₀ with status := "processing",
                           progress := some "Running deep research..." }
        from dictGet_dictSet_self _ _ _]
    rfl

theorem status_view_of_processing {α : Type} (store : JobStore α) (job_id : String)
    (job : JobRecord α) (h : JSONStorage.get store job_id = some job)
    (hs : job.status = "processing") :
    get_learning_plan_status store job_id
      = .ok { job_id := job_id, status := job.status,
              progress := some (job.progress.getD "Analyzing paper...") } := by
  simp [get_learning_plan_status, h, hs]

theorem status_view_of_complete {α : Type} (store : JobStore α) (job_id : String)
    (job : JobRecord α) (h : JSONStorage.get store job_id = some job)
    (hs : job.status = "complete") :
    get_learning_plan_status store job_id
      = .ok { job_id := job_id, status := job.status, plan := job.plan } := by
  simp [get_learning_plan_status, h, hs]

theorem status_view_of_failed {α : Type} (store : JobStore α) (job_id : String)
    (job : JobRecord α) (h : JSONStorage.get store job_id = some job)
    (hs : job.status = "failed") :
    get_learning_plan_status store job_id
      = .ok { job_id := job_id, status := job.status,
              error := some (job.error.getD "Unknown error") } := by
  simp [get_learning_plan_status, h, hs]

/-! ## Claim theorems -/

/-- C10: for keys `k ≠ k'`, `JSONStorage.set(k, v)` leaves the value
subsequently returned by `get(k')` unchanged, and a subsequent `get(k)`
returns `v`; the `set` is a full-file replace (`write` of the whole
patched dict) in which only the entry for `k` is patched. -/
theorem storage_set_frame {α : Type} (file : List (String × α)) (k k' : String)
    (v : α) (h : k ≠ k') :
    JSONStorage.get (JSONStorage.set file k v) k' = JSONStorage.get file k'
    ∧ JSONStorage.get (JSONStorage.set file k v) k = some v
    ∧ JSONStorage.set file k v = JSONStorage.write (dictSet (JSONStorage.read file) k v) :=
  ⟨dictGet_dictSet_ne file k k' v (Ne.symm h),
   dictGet_dictSet_self file k v,
   rfl⟩

/-- Witness for C10 at a concrete store. -/
theorem storage_set_frame_witness :
    JSONStorage.get (JSONStorage.set [("a", 1)] "b" 2) "a" = JSONStorage.get [("a", 1)] "a"
    ∧ JSONStorage.get (JSONStorage.set [("a", 1)] "b" 2) "b" = some 2
    ∧ JSONStorage.set [("a", 1)] "b" 2
        = JSONStorage.write (dictSet (JSONStorage.read [("a", 1)]) "b" 2) :=
  storage_set_frame [("a", 1)] "b" "a" 2 (by decide)

/-- C3: aspect-ratio bucketing in `equation_annotate` is a pure total
function of the input ratio into exactly five buckets with
exclusive-above boundaries — `ratio > 2.2` gives the widescreen bucket
`"16:9"`, `ratio > 1.5` the wide bucket `"4:3"`, `ratio > 0.9` the square
bucket `"1:1"`, `ratio > 0.6` the tall bucket `"3:4"`, any other ratio
the portrait bucket `"9:16"`; `ratio = 2.2` falls into the wide bucket,
and `3.0, 1.8, 1.0, 0.7, 0.3` map to the five buckets in order. -/
theorem aspect_ratio_bucketing :
    (∀ r : ℚ, 22/10 < r → aspectRatioBucket r = "16:9")
    ∧ (∀ r : ℚ, r ≤ 22/10 → 15/10 < r → aspectRatioBucket r = "4:3")
    ∧ (∀ r : ℚ, r ≤ 15/10 → 9/10 < r → aspectRatioBucket r = "1:1")
    ∧ (∀ r : ℚ, r ≤ 9/10 → 6/10 < r → aspectRatioBucket r = "3:4")
    ∧ (∀ r : ℚ, r ≤ 6/10 → aspectRatioBucket r = "9:16")
    ∧ (∀ r : ℚ, aspectRatioBucket r ∈ ["16:9", "4:3", "1:1", "3:4", "9:16"])
    ∧ aspectRatioBucket (22/10) = "4:3"
    ∧ aspectRatioBucket 3 = "16:9"
    ∧ aspectRatioBucket (18/10) = "4:3"
    ∧ aspectRatioBucket 1 = "1:1"
    ∧ aspectRatioBucket (7/10) = "3:4"
    ∧ aspectRatioBucket (3/10) = "9:16" := by
  refine ⟨?_, ?_, ?_, ?_, ?_, ?_, ?_, ?_, ?_, ?_, ?_, ?_⟩
  · intro r h; simp [aspectRatioBucket, h]
  · intro r h₁ h₂; simp [aspectRatioBucket, not_lt.mpr h₁, h₂]
  · intro r h₁ h₂
    have h₀ : ¬ (22/10 : ℚ) < r := not_lt.mpr (h₁.trans (by norm_num))
    simp [aspectRatioBucket, h₀, not_lt.mpr h₁, h₂]
  · intro r h₁ h₂
    have h₀ : ¬ (22/10 : ℚ) < r := not_lt.mpr (h₁.trans (by norm_num))
    have h₀' : ¬ (15/10 : ℚ) < r := not_lt.mpr (h₁.trans (by norm_num))
    simp [aspectRatioBucket, h₀, h₀', not_lt.mpr h₁, h₂]
  · intro r h₁
    have h₀ : ¬ (22/10 : ℚ) < r := not_lt.mpr (h₁.trans (by norm_num))
    have h₁' : ¬ (15/10 : ℚ) < r := not_lt.mpr (h₁.trans (by norm_num))
    have h₂ : ¬ (9/10 : ℚ) < r := not_lt.mpr (h₁.trans (by norm_num))
    simp [aspectRatioBucket, h₀, h₁', h₂, not_lt.mpr h₁]
  · intro r
    simp only [aspectRatioBucket]
    split <;> simp_all <;> (try split) <;> simp_all <;> (try split) <;> simp_all
      <;> (try split) <;> simp_all
  · norm_num [aspectRatioBucket]
  · norm_num [aspectRatioBucket]
  · norm_num [aspectRatioBucket]
  · norm_num [aspectRatioBucket]
  · norm_num [aspectRatioBucket]
  · norm_num [aspectRatioBucket]

/-- Witness for C3 at concrete ratios, one per hypothesis-bearing conjunct. -/
theorem aspect_ratio_bucketing_witness :
    aspectRatioBucket (5/2) = "16:9"
    ∧ aspectRatioBucket 2 = "4:3"
    ∧ aspectRatioBucket (6/5) = "1:1"
    ∧ aspectRatioBucket (4/5) = "3:4"
    ∧ aspectRatioBucket (1/2) = "9:16"
    ∧ aspectRatioBucket (1/2) ∈ ["16:9", "4:3", "1:1", "3:4", "9:16"] :=
  ⟨aspect_ratio_bucketing.1 (5/2) (by norm_num),
   aspect_ratio_bucketing.2.1 2 (by norm_num) (by norm_num),
   aspect_ratio_bucketing.2.2.1 (6/5) (by norm_num) (by norm_num),
   aspect_ratio_bucketing.2.2.2.1 (4/5) (by norm_num) (by norm_num),
   aspect_ratio_bucketing.2.2.2.2.1 (1/2) (by norm_num),
   aspect_ratio_bucketing.2.2.2.2.2.1 (1/2)⟩

/-- C2: for every ChatRequest with history `[\x7buser,"a"\x7d,
\x7bassistant,"b"\x7d]` and question `"c"`, the conversation assembled by
`chat_stream` is exactly the 5-turn sequence `[user(context with optional
page annotation), model(ack), user("a"), model("b"), user("c")]`; every
caller-supplied role other than exactly `"user"` maps to `model`, and
history order is preserved in general. -/
theorem chat_conversation_assembly (ctx : String) (page : Option Int)
    (fss : Option String) (a b c : String) :
    chatContents { question := c, context := ctx, page := page,
                   file_search_store_id := fss,
                   history := some [{ role := "user", content := a },
                                    { role := "assistant", content := b }] }
      = [{ role := .user, text := contextMessage ctx page },
         { role := .model, text := ackMessage },
         { role := .user, text := a },
         { role := .model, text := b },
         { role := .user, text := c }]
    ∧ (∀ role : String, role ≠ "user" → mapRole role = .model)
    ∧ (∀ hist : List ChatMessage,
        chatContents { question := c, context := ctx, page := page,
                       file_search_store_id := fss, history := some hist }
          = [{ role := .user, text := contextMessage ctx page },
             { role := .model, text := ackMessage }]
            ++ hist.map (fun m => { role := mapRole m.role, text := m.content })
            ++ [{ role := .user, text := c }]) := by
  refine ⟨?_, ?_, ?_⟩
  · simp [chatContents, mapRole]
  · intro role h; simp [mapRole, h]
  · intro hist; simp [chatContents]

/-- Witness for C2 at a concrete request and role spelling. -/
theorem chat_conversation_assembly_witness :
    chatContents { question := "c", context := "x",
                   history := some [{ role := "user", content := "a" },
                                    { role := "assistant", content := "b" }] }
      = [{ role := .user, text := contextMessage "x" none },
         { role := .model, text := ackMessage },
         { role := .user, text := "a" },
         { role := .model, text := "b" },
         { role := .user, text := "c" }]
    ∧ mapRole "assistant" = .model :=
  ⟨(chat_conversation_assembly "x" none none "a" "b" "c").1,
   (chat_conversation_assembly "x" none none "a" "b" "c").2.1 "assistant" (by decide)⟩

/-- C4: when the provider fails after producing a prefix of chunks, the
frame sequence is text frames followed by exactly one terminal error
frame carrying the failure message (so no done marker anywhere, in
particular not after the error frame), and the four streaming endpoints
(chat, formula, figure, equation) have identical frame behaviour on
every outcome. -/
theorem stream_error_policy (produced : List (Option String)) (msg : String) :
    (∃ ts : List String,
        chat_stream.frames (.fail produced msg)
          = ts.map Frame.text ++ [Frame.error msg])
    ∧ (∀ o : StreamOutcome,
        formula_explain.frames o = chat_stream.frames o
        ∧ figure_explain.frames o = chat_stream.frames o
        ∧ equation_explain.frames o = chat_stream.frames o) := by
  constructor
  · exact ⟨chunkTexts produced, by simp [chat_stream.frames, chunkFrames_eq_map]⟩
  · intro o
    cases o <;>
      simp [chat_stream.frames, formula_explain.frames, figure_explain.frames,
            equation_explain.frames]

/-- C5: for every valid request with non-empty question and context, when
the provider produces its chunks without error, `chat_stream` emits
exactly one text frame per truthy chunk text, carrying those texts in
provider arrival order (`chunkTexts` is the order-preserving selection of
the non-`None`, non-empty chunk texts; when every chunk is a plain
non-empty text the frame texts are literally the chunk list), followed
by exactly one terminal done-marker frame; each frame is rendered on the
wire as a line-delimited `data: <json>` event whose JSON is exactly
`\x7b"text": s\x7d`, `\x7b"done": true\x7d`, or `\x7b"error": m\x7d`. -/
theorem chat_stream_success_frames (request : ChatRequest)
    (chunks : List (Option String)) (texts : List String)
    (hq : request.question ≠ "") (hc : request.context ≠ "")
    (ht : ∀ t ∈ texts, t ≠ "") :
    chat_stream_endpoint request (.ok chunks)
      = .ok ((chunkTexts chunks).map Frame.text ++ [Frame.done])
    ∧ chat_stream_endpoint request (.ok (texts.map some))
      = .ok (texts.map Frame.text ++ [Frame.done])
    ∧ (∀ s, renderFrame (Frame.text s)
        = "data: " ++ ("\x7b\"text\": " ++ jsonString s ++ "\x7d") ++ "\n\n")
    ∧ renderFrame Frame.done = "data: " ++ "\x7b\"done\": true\x7d" ++ "\n\n"
    ∧ (∀ m, renderFrame (Frame.error m)
        = "data: " ++ ("\x7b\"error\": " ++ jsonString m ++ "\x7d") ++ "\n\n") := by
  refine ⟨?_, ?_, fun s => rfl, rfl, fun m => rfl⟩
  · simp [chat_stream_endpoint, hq, hc, chat_stream.frames, chunkFrames_eq_map]
  · rw [show chat_stream_endpoint request (.ok (texts.map some))
          = .ok ((chunkTexts (texts.map some)).map Frame.text ++ [Frame.done]) from by
        simp [chat_stream_endpoint, hq, hc, chat_stream.frames, chunkFrames_eq_map]]
    rw [chunkTexts_map_some texts ht]

/-- Witness for C5 at a concrete request and chunk list. -/
theorem chat_stream_success_frames_witness :
    chat_stream_endpoint { question := "q", context := "ctx" }
        (.ok [some "hello", none, some "", some "world"])
      = .ok ((chunkTexts [some "hello", none, some "", some "world"]).map Frame.text
              ++ [Frame.done])
    ∧ chat_stream_endpoint { question := "q", context := "ctx" }
        (.ok (["hello", "world"].map some))
      = .ok (["hello", "world"].map Frame.text ++ [Frame.done])
    ∧ (∀ s, renderFrame (Frame.text s)
        = "data: " ++ ("\x7b\"text\": " ++ jsonString s ++ "\x7d") ++ "\n\n")
    ∧ renderFrame Frame.done = "data: " ++ "\x7b\"done\": true\x7d" ++ "\n\n"
    ∧ (∀ m, renderFrame (Frame.error m)
        = "data: " ++ ("\x7b\"error\": " ++ jsonString m ++ "\x7d") ++ "\n\n") :=
  chat_stream_success_frames { question := "q", context := "ctx" }
    [some "hello", none, some "", some "world"] ["hello", "world"]
    (by decide) (by decide) (by decide)

/-- C8: an empty formula (and likewise an empty question or context for
chat) is rejected synchronously with a descriptive 400 validation error,
for every provider behaviour — so no frame is produced and no stream is
opened (neither endpoint touches the job store at all). -/
theorem empty_input_rejected (context : Option String) (page : Option Int)
    (o o' : StreamOutcome) (request : ChatRequest)
    (h : request.question = "" ∨ request.context = "") :
    formula_explain_endpoint "" context page o
      = .error { status_code := 400, detail := "Formula is required" }
    ∧ chat_stream_endpoint request o'
      = .error { status_code := 400, detail := "Both question and context are required" } := by
  constructor
  · rfl
  · simp [chat_stream_endpoint, h]

/-- Witness for C8 at concrete empty inputs. -/
theorem empty_input_rejected_witness :
    formula_explain_endpoint "" none none (.ok [some "spurious"])
      = .error { status_code := 400, detail := "Formula is required" }
    ∧ chat_stream_endpoint { question := "", context := "ctx" } (.ok [some "spurious"])
      = .error { status_code := 400, detail := "Both question and context are required" } :=
  empty_input_rejected none none (.ok [some "spurious"]) (.ok [some "spurious"])
    { question := "", context := "ctx" } (Or.inl rfl)

/-- C7: enqueue persists a record with status `queued` and the request
payload before returning (touching no other key and consulting no
provider outcome — `generate_learning_plan` takes none), schedules the
background task with the job id and request as its arguments, and the
immediate response carries the job id and the status string
`"processing"`.  The fresh id minted from `uuid4` is modelled as the
`job_id` input. -/
theorem enqueue_contract {α : Type} (store : JobStore α) (job_id : String)
    (request : LearningPlanRequest) :
    (generate_learning_plan (α := α) store job_id request).2.1.job_id = job_id
    ∧ (generate_learning_plan (α := α) store job_id request).2.1.status = "processing"
    ∧ JSONStorage.get (generate_learning_plan (α := α) store job_id request).1 job_id
        = some { status := "queued", request := some request }
    ∧ (∀ k, k ≠ job_id →
        JSONStorage.get (generate_learning_plan (α := α) store job_id request).1 k
          = JSONStorage.get store k)
    ∧ (generate_learning_plan (α := α) store job_id request).2.2 = (job_id, request) :=
  ⟨rfl, rfl, dictGet_dictSet_self store job_id _,
   fun k hk => dictGet_dictSet_ne store job_id k _ hk, rfl⟩

/-- Witness for C7 at a concrete enqueue. -/
theorem enqueue_contract_witness :
    (generate_learning_plan ([] : JobStore Nat) "lp_1"
        { title := "t", abstract := "a" }).2.1.job_id = "lp_1"
    ∧ (generate_learning_plan ([] : JobStore Nat) "lp_1"
        { title := "t", abstract := "a" }).2.1.status = "processing"
    ∧ JSONStorage.get (generate_learning_plan ([] : JobStore Nat) "lp_1"
        { title := "t", abstract := "a" }).1 "lp_1"
        = some { status := "queued", request := some { title := "t", abstract := "a" } }
    ∧ JSONStorage.get (generate_learning_plan ([] : JobStore Nat) "lp_1"
        { title := "t", abstract := "a" }).1 "other"
        = JSONStorage.get ([] : JobStore Nat) "other" :=
  ⟨(enqueue_contract [] "lp_1" { title := "t", abstract := "a" }).1,
   (enqueue_contract [] "lp_1" { title := "t", abstract := "a" }).2.1,
   (enqueue_contract [] "lp_1" { title := "t", abstract := "a" }).2.2.1,
   (enqueue_contract [] "lp_1" { title := "t", abstract := "a" }).2.2.2.1 "other"
     (by decide)⟩

/-- C6: a provider-call failure or a JSON-parse failure inside the
background task always terminates in a job-table write with status
`"failed"` and a string error description; when the job record exists
(as enqueue guarantees) the stored error is exactly the exception text;
and on every provider outcome whatsoever the task's final write leaves
the record in a terminal `"complete"`/`"failed"` status (the single
`except Exception` block lets nothing escape, and the task consults the
provider exactly once — `process_learning_plan` consumes one outcome, so
no retry occurs). -/
theorem background_failure_folded (store : JobStore Nat) (job_id : String)
    (provider : ProviderResult Nat) (msg : String)
    (h : provider = .parseError msg ∨ provider = .providerError msg) :
    (∃ r : JobRecord Nat,
        JSONStorage.get (process_learning_plan store job_id provider) job_id = some r
        ∧ r.status = "failed" ∧ ∃ m, r.error = some m)
    ∧ (∀ job₀ : JobRecord Nat, JSONStorage.get store job_id = some job₀ →
        ∃ r : JobRecord Nat,
          JSONStorage.get (process_learning_plan store job_id provider) job_id = some r
          ∧ r.status = "failed" ∧ r.error = some msg)
    ∧ (∀ p : ProviderResult Nat, ∃ r : JobRecord Nat,
        JSONStorage.get (process_learning_plan store job_id p) job_id = some r
        ∧ (r.status = "complete" ∨ r.status = "failed")) := by
  refine ⟨?_, ?_, ?_⟩
  · cases hj : JSONStorage.get store job_id with
    | none =>
      refine ⟨{ status := "failed", error := some noneTypeMsg }, ?_, rfl, noneTypeMsg, rfl⟩
      simp only [process_learning_plan, hj]
      rw [failWrite_get, hj]
      rfl
    | some job₀ =>
      rcases h with h | h <;> subst h <;>
        exact ⟨_, process_get_some store job_id job₀ hj _, rfl, msg, rfl⟩
  · intro job₀ hj
    rcases h with h | h <;> subst h <;>
      exact ⟨_, process_get_some store job_id job₀ hj _, rfl, rfl⟩
  · intro p
    cases hj : JSONStorage.get store job_id with
    | none =>
      refine ⟨{ status := "failed", error := some noneTypeMsg }, ?_, Or.inr rfl⟩
      simp only [process_learning_plan, hj]
      rw [failWrite_get, hj]
      rfl
    | some job₀ =>
      cases p with
      | success parsed => exact ⟨_, process_get_some store job_id job₀ hj _, Or.inl rfl⟩
      | parseError m => exact ⟨_, process_get_some store job_id job₀ hj _, Or.inr rfl⟩
      | providerError m => exact ⟨_, process_get_some store job_id job₀ hj _, Or.inr rfl⟩

/-- Witness for C6 at a concrete failing run. -/
theorem background_failure_folded_witness :
    ((∃ r : JobRecord Nat,
        JSONStorage.get
          (process_learning_plan [("lp_1", { status := "queued" })] "lp_1"
            (.providerError "boom")) "lp_1" = some r
        ∧ r.status = "failed" ∧ ∃ m, r.error = some m)
    ∧ (∀ job₀ : JobRecord Nat,
        JSONStorage.get [("lp_1", { status := "queued" })] "lp_1" = some job₀ →
        ∃ r : JobRecord Nat,
          JSONStorage.get
            (process_learning_plan [("lp_1", { status := "queued" })] "lp_1"
              (.providerError "boom")) "lp_1" = some r
          ∧ r.status = "failed" ∧ r.error = some "boom")
    ∧ (∀ p : ProviderResult Nat, ∃ r : JobRecord Nat,
        JSONStorage.get
          (process_learning_plan [("lp_1", { status := "queued" })] "lp_1" p) "lp_1"
          = some r
        ∧ (r.status = "complete" ∨ r.status = "failed"))) :=
  background_failure_folded [("lp_1", { status := "queued" })] "lp_1"
    (.providerError "boom") "boom" (Or.inr rfl)

/-- C9: `get_learning_plan_status` is a read-only view — its result is a
function of the single record `jobs_storage.get` returns, so repeated
calls against an unchanged record (in particular a terminal job, which
no writer touches again) return identical results; a missing id fails
with 404 NotFound; an existing job yields a view keyed by its current
status, carrying `progress` when processing, the stored `plan` when
complete, and `error` when failed — and never more than one of the
three. -/
theorem get_status_contract (store store' : JobStore Nat) (job_id : String) :
    (JSONStorage.get store job_id = none →
      get_learning_plan_status store job_id
        = .error { status_code := 404, detail := "Job ID not found" })
    ∧ (∀ job : JobRecord Nat, JSONStorage.get store job_id = some job →
        (job.status = "processing" →
          get_learning_plan_status store job_id
            = .ok { job_id := job_id, status := job.status,
                    progress := some (job.progress.getD "Analyzing paper...") })
        ∧ (job.status = "complete" →
          get_learning_plan_status store job_id
            = .ok { job_id := job_id, status := job.status, plan := job.plan })
        ∧ (job.status = "failed" →
          get_learning_plan_status store job_id
            = .ok { job_id := job_id, status := job.status,
                    error := some (job.error.getD "Unknown error") }))
    ∧ (JSONStorage.get store job_id = JSONStorage.get store' job_id →
        get_learning_plan_status store job_id = get_learning_plan_status store' job_id)
    ∧ (∀ v : StatusView Nat, get_learning_plan_status store job_id = .ok v →
        (if v.progress.isSome then 1 else 0) + (if v.plan.isSome then 1 else 0)
          + (if v.error.isSome then 1 else 0) ≤ 1) := by
  refine ⟨?_, ?_, ?_, ?_⟩
  · intro h; simp [get_learning_plan_status, h]
  · intro job hj
    exact ⟨status_view_of_processing store job_id job hj,
           status_view_of_complete store job_id job hj,
           status_view_of_failed store job_id job hj⟩
  · intro h
    simp only [get_learning_plan_status, h]
  · intro v hv
    simp only [get_learning_plan_status] at hv
    cases hj : JSONStorage.get store job_id with
    | none => simp [hj] at hv
    | some job =>
      rw [hj] at hv
      by_cases h₁ : job.status = "processing"
      · simp [h₁] at hv
        simp [← hv]
      · by_cases h₂ : job.status = "complete"
        · simp [h₁, h₂] at hv
          cases hp : job.plan <;> simp [← hv, hp]
        · by_cases h₃ : job.status = "failed"
          · simp [h₁, h₂, h₃] at hv
            simp [← hv]
          · simp [h₁, h₂, h₃] at hv
            simp [← hv]

/-- Witness for C9 at a concrete store and record. -/
theorem get_status_contract_witness :
    get_learning_plan_status ([] : JobStore Nat) "ghost"
      = .error { status_code := 404, detail := "Job ID not found" }
    ∧ get_learning_plan_status
        ([("lp_1", { status := "complete", plan := some 7 })] : JobStore Nat) "lp_1"
        = .ok { job_id := "lp_1", status := "complete", plan := some 7 }
    ∧ get_learning_plan_status
        ([("lp_1", { status := "complete", plan := some 7 }),
          ("lp_2", { status := "queued" })] : JobStore Nat) "lp_1"
        = get_learning_plan_status
            ([("lp_1", { status := "complete", plan := some 7 })] : JobStore Nat) "lp_1"
    ∧ (if (some (7 : Nat)).isSome then 1 else 0) ≤ 1 := by
  refine ⟨(get_status_contract [] [] "ghost").1 (by decide), ?_, ?_, ?_⟩
  · have h := ((get_status_contract
      ([("lp_1", { status := "complete", plan := some 7 })] : JobStore Nat)
      [] "lp_1").2.1 { status := "complete", plan := some 7 } (by decide)).2.1 rfl
    simpa using h
  · exact (get_status_contract
      ([("lp_1", { status := "complete", plan := some 7 }),
        ("lp_2", { status := "queued" })] : JobStore Nat)
      ([("lp_1", { status := "complete", plan := some 7 })] : JobStore Nat)
      "lp_1").2.2.1 (by decide)
  · decide

/-- C1 fails on the code as stated: completing a job does not clear the
`progress` field of the persisted record.  Running the background task to
success on a freshly enqueued job leaves a record with status
`"complete"` in which the result (`plan`) AND the last progress message
are both populated, so the persisted record does not satisfy "exactly one
of progress/result/error populated" and the `processing → complete`
transition does not clear `progress`. -/
theorem job_record_exclusivity_counterexample :
    JSONStorage.get
      (process_learning_plan
        (generate_learning_plan ([] : JobStore Nat) "lp_0"
          { title := "t", abstract := "a" }).1
        "lp_0" (.success 7))
      "lp_0"
      = some { status := "complete",
               request := some { title := "t", abstract := "a" },
               progress := some "Running deep research...",
               plan := some 7, error := none }
    ∧ ¬ (∀ r : JobRecord Nat,
          JSONStorage.get
            (process_learning_plan
              (generate_learning_plan ([] : JobStore Nat) "lp_0"
                { title := "t", abstract := "a" }).1
              "lp_0" (.success 7))
            "lp_0" = some r →
          r.status = "complete" → r.progress = none) := by
  constructor
  · decide
  · intro hall
    have h := hall
      { status := "complete",
        request := some { title := "t", abstract := "a" },
        progress := some "Running deep research...",
        plan := some 7, error := none } (by decide) rfl
    simp at h

/-- C1 (amended): the `processing → complete` transition stores the parsed
payload as the result (`plan`) but leaves the last progress message in the
persisted record, and the transition to `failed` stores the error string
while likewise leaving progress (and any prior fields) in place; the
exactly-one-of-progress/result/error shape holds of the *status view*
(`get_learning_plan_status`), which is keyed solely by the persisted
status. -/
theorem job_terminal_writes (store : JobStore Nat) (job_id : String)
    (job₀ : JobRecord Nat) (parsed : Nat) (msg : String)
    (hj : JSONStorage.get store job_id = some job₀) :
    (JSONStorage.get (process_learning_plan store job_id (.success parsed)) job_id
       = some { job₀ with status := "complete",
                          progress := some "Running deep research...",
                          plan := some parsed }
     ∧ get_learning_plan_status (process_learning_plan store job_id (.success parsed)) job_id
       = .ok { job_id := job_id, status := "complete", plan := some parsed })
    ∧ (JSONStorage.get (process_learning_plan store job_id (.providerError msg)) job_id
       = some { job₀ with status := "failed",
                          progress := some "Running deep research...",
                          error := some msg }
     ∧ get_learning_plan_status (process_learning_plan store job_id (.providerError msg)) job_id
       = .ok { job_id := job_id, status := "failed", error := some msg }) := by
  have hc := process_get_some store job_id job₀ hj (.success parsed)
  have hf := process_get_some store job_id job₀ hj (.providerError msg)
  refine ⟨⟨hc, ?_⟩, ⟨hf, ?_⟩⟩
  · have hv := status_view_of_complete _ job_id _ hc rfl
    simpa using hv
  · have hv := status_view_of_failed _ job_id _ hf rfl
    simpa using hv

/-- Witness for C1 (amended) at a concrete enqueued job. -/
theorem job_terminal_writes_witness :
    (JSONStorage.get
        (process_learning_plan ([("lp_0", { status := "queued" })] : JobStore Nat)
          "lp_0" (.success 7)) "lp_0"
       = some { status := "complete", progress := some "Running deep research...",
                plan := some 7 }
     ∧ get_learning_plan_status
        (process_learning_plan ([("lp_0", { status := "queued" })] : JobStore Nat)
          "lp_0" (.success 7)) "lp_0"
       = .ok { job_id := "lp_0", status := "complete", plan := some 7 }) := by
  exact ⟨(job_terminal_writes [("lp_0", { status := "queued" })] "lp_0"
      { status := "queued" } 7 "boom" (by decide)).1.1,
    (job_terminal_writes [("lp_0", { status := "queued" })] "lp_0"
      { status := "queued" } 7 "boom" (by decide)).1.2⟩

end RabbitHole
